import Mathlib

/-!
A verification development for the sherpa-onnx TTS Hugging-Face space
(`model.py` and `app.py`): the model-resolution registry, its construction
strategies, the per-function LRU caches, and the synthesis entry point,
shallowly embedded in Lean.  Machine floats (the `speed` slider value) are
modelled as rationals; `hf_hub_download` is modelled as a deterministic
path function together with an explicit trace of (repo_id, filename)
fetch events.
-/

namespace K2TTS

/-! ### Python string primitives, on `List Char` -/

/-- Does `p` lead (start) the list `l`?  (`str.startswith` on char lists). -/
def leadsList : List Char → List Char → Bool
  | [], _ => true
  | _ :: _, [] => false
  | a :: p, b :: l => a == b && leadsList p l

/-- Does `p` occur as a contiguous sublist of `l`?  This is Python's
substring test `p in l` (an empty pattern always occurs). -/
def hasSub (p : List Char) : List Char → Bool
  | [] => leadsList p []
  | b :: l => leadsList p (b :: l) || hasSub p l

/-- Python's `pat in s` substring test. -/
def pyIn (pat s : String) : Bool := hasSub pat.data s.data

/-- Python's `s.split(c)[0]`: the characters before the first occurrence
of `c` (the whole string when `c` is absent). -/
def pySplitHead (c : Char) (s : String) : String :=
  String.mk (s.data.takeWhile (fun a => a != c))

/-- Python's `s.split(c)[-1]`: the characters after the last occurrence
of `c` (the whole string when `c` is absent). -/
def pyAfterLast (c : Char) (s : String) : String :=
  String.mk ((s.data.reverse.takeWhile (fun a => a != c)).reverse)

/-- Python's `s.split(c)[1]` for the identifiers used here, which all have
the shape `namespace/name`: the characters strictly between the first
occurrence of `c` and the next one (or the end).  (On a string without
`c` Python would raise IndexError; every registry identifier contains
exactly one `/`.) -/
def pySecond (c : Char) (s : String) : String :=
  String.mk (((s.data.dropWhile (fun a => a != c)).drop 1).takeWhile (fun a => a != c))

/-- Python's character slice `s[n:]`. -/
def strDrop (n : Nat) (s : String) : String := String.mk (s.data.drop n)

/-! ### Configuration records (sherpa_onnx config structures, the fields
`model.py` populates; unset fields keep the library's defaults) -/

structure OfflineTtsVitsModelConfig where
  model : String
  lexicon : String
  tokens : String
  data_dir : String := ""
  dict_dir : String := ""
  length_scale : ℚ := 1
  deriving DecidableEq, Repr

structure OfflineTtsModelConfig where
  vits : OfflineTtsVitsModelConfig
  provider : String := "cpu"
  debug : Bool := true
  num_threads : Nat := 2
  deriving DecidableEq, Repr

structure OfflineTtsConfig where
  model : OfflineTtsModelConfig
  rule_fsts : String := ""
  rule_fars : String := ""
  deriving DecidableEq, Repr

/-- The instantiated engine.  `engineId` is an allocation counter stamped
at construction time, so equality of `OfflineTts` values is object
identity, not mere configuration equality. -/
structure OfflineTts where
  config : OfflineTtsConfig
  engineId : Nat
  deriving DecidableEq, Repr

/-- Errors the embedded code can raise.  `unsupported` is the
`ValueError(f"Unsupported ...")` raises; `assertionError` a failing
`assert`; `zeroDivision` Python's ZeroDivisionError from
`length_scale=1.0/speed` at speed 0; `generationError` the
`ValueError("Error in generating audios ...")` in `app.process`;
`attributeError` Python's AttributeError on a missing module attribute. -/
inductive Err where
  | unsupported (what : String)
  | assertionError
  | zeroDivision
  | generationError
  | attributeError
  deriving DecidableEq, Repr

/-- One Artifact-Fetcher invocation: the (repo_id, filename) pair passed
to `get_file`. -/
abbrev Fetch := String × String

/-- `get_file` = `hf_hub_download`, modelled as the deterministic local
path it caches the artifact at. -/
def get_file (repo_id : String) (filename : String) : String :=
  repo_id ++ "/" ++ filename

/-! ### Construction-strategy bodies (the undecorated function bodies;
the `@lru_cache` layer is added separately below).  Each body returns the
ordered trace of `get_file` calls it performs together with either the
assembled config or the error it raises. -/

/-- Body of `_get_vits_vctk` (model.py:39): asserts the repo id, then
fetches model, lexicon, tokens.  The assert fires before any fetch. -/
def _get_vits_vctk_body (repo_id : String) (speed : ℚ) :
    List Fetch × Except Err OfflineTtsConfig :=
  if repo_id = "csukuangfj/vits-vctk" then
    let fs : List Fetch :=
      [(repo_id, "vits-vctk.onnx"), (repo_id, "lexicon.txt"), (repo_id, "tokens.txt")]
    if speed = 0 then (fs, .error .zeroDivision)
    else
      (fs, .ok
        { model :=
          { vits :=
            { model := get_file repo_id "vits-vctk.onnx"
              lexicon := get_file repo_id "lexicon.txt"
              tokens := get_file repo_id "tokens.txt"
              length_scale := 1 / speed } } })
  else ([], .error .assertionError)

/-- Body of `_get_vits_ljs` (model.py:79). -/
def _get_vits_ljs_body (repo_id : String) (speed : ℚ) :
    List Fetch × Except Err OfflineTtsConfig :=
  if repo_id = "csukuangfj/vits-ljs" then
    let fs : List Fetch :=
      [(repo_id, "vits-ljs.onnx"), (repo_id, "lexicon.txt"), (repo_id, "tokens.txt")]
    if speed = 0 then (fs, .error .zeroDivision)
    else
      (fs, .ok
        { model :=
          { vits :=
            { model := get_file repo_id "vits-ljs.onnx"
              lexicon := get_file repo_id "lexicon.txt"
              tokens := get_file repo_id "tokens.txt"
              length_scale := 1 / speed } } })
  else ([], .error .assertionError)

/-- The name-classification step of `_get_vits_piper` (model.py:121-130):
`"model"` for coqui / vits-mms ids, the speaker name after the
`vits-piper-` / `vits-mimic3-` prefix of the second path segment
otherwise, and `none` for the `raise ValueError(f"Unsupported ...")`
branch. -/
def piperModelName (repo_id : String) : Option String :=
  if pyIn "coqui" repo_id || pyIn "vits-mms" repo_id then some "model"
  else if pyIn "piper" repo_id then some (strDrop 11 (pySecond '/' repo_id))
  else if pyIn "mimic3" repo_id then some (strDrop 12 (pySecond '/' repo_id))
  else none

/-- The `data_dir` chosen by `_get_vits_piper` (model.py:120,132-133). -/
def piperDataDir (repo_id : String) : String :=
  if pyIn "vits-coqui-uk-mai" repo_id || pyIn "vits-mms" repo_id then ""
  else "/tmp/espeak-ng-data"

/-- Body of `_get_vits_piper` (model.py:119-163): classify the name (the
Unsupported ValueError fires before any fetch), then fetch exactly
`{name}.onnx` and `tokens.txt`; the config's lexicon is the empty
string. -/
def _get_vits_piper_body (repo_id : String) (speed : ℚ) :
    List Fetch × Except Err OfflineTtsConfig :=
  match piperModelName repo_id with
  | none => ([], .error (.unsupported repo_id))
  | some name =>
    let fs : List Fetch := [(repo_id, name ++ ".onnx"), (repo_id, "tokens.txt")]
    if speed = 0 then (fs, .error .zeroDivision)
    else
      (fs, .ok
        { model :=
          { vits :=
            { model := get_file repo_id (name ++ ".onnx")
              lexicon := ""
              data_dir := piperDataDir repo_id
              tokens := get_file repo_id "tokens.txt"
              length_scale := 1 / speed } } })

/-- Body of `_get_vits_zh_aishell3` (model.py:172-228): assert, then
fetch model, lexicon, tokens, the four rule fsts and `rule.far`. -/
def _get_vits_zh_aishell3_body (repo_id : String) (speed : ℚ) :
    List Fetch × Except Err OfflineTtsConfig :=
  if repo_id = "csukuangfj/vits-zh-aishell3" then
    let fs : List Fetch :=
      [(repo_id, "vits-aishell3.onnx"), (repo_id, "lexicon.txt"), (repo_id, "tokens.txt"),
       (repo_id, "phone.fst"), (repo_id, "date.fst"), (repo_id, "number.fst"),
       (repo_id, "new_heteronym.fst"), (repo_id, "rule.far")]
    if speed = 0 then (fs, .error .zeroDivision)
    else
      (fs, .ok
        { model :=
          { vits :=
            { model := get_file repo_id "vits-aishell3.onnx"
              lexicon := get_file repo_id "lexicon.txt"
              tokens := get_file repo_id "tokens.txt"
              length_scale := 1 / speed } }
          rule_fsts := String.intercalate ","
            [get_file repo_id "phone.fst", get_file repo_id "date.fst",
             get_file repo_id "number.fst", get_file repo_id "new_heteronym.fst"]
          rule_fars := get_file repo_id "rule.far" })
  else ([], .error .assertionError)

/-- Body of `_get_vits_hf` (model.py:232-311): strip the `|`-suffixed
disambiguation tag first (model.py:233), derive the model name, fetch
model, lexicon, tokens, then either the fixed four-file rule-fst set
(with dict_dir `/tmp/dict`) or, for the cantonese xiaomaiiwn voice,
a single `rule.fst` (with empty dict_dir).  The shell download of the
jieba dict bundle (model.py:240-244) is an environment side effect, not
a `get_file` call, and is not part of the fetch trace. -/
def _get_vits_hf_body (repo_id0 : String) (speed : ℚ) :
    List Fetch × Except Err OfflineTtsConfig :=
  let repo_id := pySplitHead '|' repo_id0
  let name :=
    if pyIn "fanchen" repo_id || pyIn "vits-cantonese-hf-xiaomaiiwn" repo_id then
      pyAfterLast '/' repo_id
    else pyAfterLast '-' repo_id
  if pyIn "vits-cantonese-hf-xiaomaiiwn" repo_id then
    let fs : List Fetch :=
      (repo_id, name ++ ".onnx") ::
        [(repo_id, "lexicon.txt"), (repo_id, "tokens.txt"), (repo_id, "rule.fst")]
    if speed = 0 then (fs, .error .zeroDivision)
    else
      (fs, .ok
        { model :=
          { vits :=
            { model := get_file repo_id (name ++ ".onnx")
              lexicon := get_file repo_id "lexicon.txt"
              tokens := get_file repo_id "tokens.txt"
              dict_dir := ""
              length_scale := 1 / speed } }
          rule_fsts := get_file repo_id "rule.fst"
          rule_fars := "" })
  else
    let fs : List Fetch :=
      (repo_id, name ++ ".onnx") ::
        [(repo_id, "lexicon.txt"), (repo_id, "tokens.txt"),
         (repo_id, "phone.fst"), (repo_id, "date.fst"), (repo_id, "number.fst"),
         (repo_id, "new_heteronym.fst")]
    if speed = 0 then (fs, .error .zeroDivision)
    else
      (fs, .ok
        { model :=
          { vits :=
            { model := get_file repo_id (name ++ ".onnx")
              lexicon := get_file repo_id "lexicon.txt"
              tokens := get_file repo_id "tokens.txt"
              dict_dir := "/tmp/dict"
              length_scale := 1 / speed } }
          rule_fsts := String.intercalate ","
            [get_file repo_id "phone.fst", get_file repo_id "date.fst",
             get_file repo_id "number.fst", get_file repo_id "new_heteronym.fst"]
          rule_fars := "" })

/-! ### The `functools.lru_cache(maxsize=10)` layer.

Each decorated function owns one cache keyed by its argument tuple
`(repo_id, speed)`.  A hit moves the entry to most-recently-used; a miss
runs the body and, on success, inserts the result at MRU, discarding the
least-recently-used entry when the cache already holds 10 entries.  A
body that raises caches nothing. -/

abbrev CacheKey := String × ℚ

/-- One LRU cache, most-recently-used first. -/
abbrev LruCache := List (CacheKey × OfflineTts)

/-- Cache lookup: on a hit the entry moves to the front (MRU). -/
def lruGet (c : LruCache) (k : CacheKey) : Option OfflineTts × LruCache :=
  match c.find? (fun p => decide (p.1 = k)) with
  | none => (none, c)
  | some p => (some p.2, p :: c.eraseP (fun q => decide (q.1 = k)))

/-- Cache insertion at MRU, evicting the LRU entry beyond capacity 10. -/
def lruInsert (c : LruCache) (k : CacheKey) (v : OfflineTts) : LruCache :=
  ((k, v) :: c).take 10

/-- Process state: the six `@lru_cache` caches of `model.py` (one per
decorated function) plus the engine allocation counter that stamps
object identities. -/
structure St where
  outerCache : LruCache
  vctkCache : LruCache
  ljsCache : LruCache
  piperCache : LruCache
  mmsCache : LruCache
  aishell3Cache : LruCache
  hfCache : LruCache
  nextId : Nat
  deriving DecidableEq, Repr

/-- Fresh process state: every cache empty. -/
def St.init : St := ⟨[], [], [], [], [], [], [], 0⟩

/-- Run one `@lru_cache`-decorated construction function: consult the
cache designated by the `getC`/`setC` lens, and on a miss run the body,
allocate a fresh engine and insert it. -/
def runCached (getC : St → LruCache) (setC : St → LruCache → St)
    (body : String → ℚ → List Fetch × Except Err OfflineTtsConfig)
    (st : St) (repo_id : String) (speed : ℚ) :
    List Fetch × Except Err OfflineTts × St :=
  match lruGet (getC st) (repo_id, speed) with
  | (some tts, c) => ([], .ok tts, setC st c)
  | (none, _) =>
    match body repo_id speed with
    | (fs, .error e) => (fs, .error e, st)
    | (fs, .ok cfg) =>
      let tts : OfflineTts := ⟨cfg, st.nextId⟩
      (fs, .ok tts,
        setC { st with nextId := st.nextId + 1 }
          (lruInsert (getC st) (repo_id, speed) tts))

/-- `_get_vits_vctk` with its cache (model.py:38). -/
def _get_vits_vctk (st : St) (repo_id : String) (speed : ℚ) :
    List Fetch × Except Err OfflineTts × St :=
  runCached (·.vctkCache) (fun st c => { st with vctkCache := c })
    _get_vits_vctk_body st repo_id speed

/-- `_get_vits_ljs` with its cache (model.py:78). -/
def _get_vits_ljs (st : St) (repo_id : String) (speed : ℚ) :
    List Fetch × Except Err OfflineTts × St :=
  runCached (·.ljsCache) (fun st c => { st with ljsCache := c })
    _get_vits_ljs_body st repo_id speed

/-- `_get_vits_piper` with its cache (model.py:118). -/
def _get_vits_piper (st : St) (repo_id : String) (speed : ℚ) :
    List Fetch × Except Err OfflineTts × St :=
  runCached (·.piperCache) (fun st c => { st with piperCache := c })
    _get_vits_piper_body st repo_id speed

/-- `_get_vits_zh_aishell3` with its cache (model.py:171). -/
def _get_vits_zh_aishell3 (st : St) (repo_id : String) (speed : ℚ) :
    List Fetch × Except Err OfflineTts × St :=
  runCached (·.aishell3Cache) (fun st c => { st with aishell3Cache := c })
    _get_vits_zh_aishell3_body st repo_id speed

/-- `_get_vits_hf` with its cache (model.py:231). -/
def _get_vits_hf (st : St) (repo_id : String) (speed : ℚ) :
    List Fetch × Except Err OfflineTts × St :=
  runCached (·.hfCache) (fun st c => { st with hfCache := c })
    _get_vits_hf_body st repo_id speed

/-- `_get_vits_mms` (model.py:166-168): its own `@lru_cache`, whose body
just delegates to the cached `_get_vits_piper`; on a miss the piper
result (the same engine object) is additionally recorded in the mms
cache. -/
def _get_vits_mms (st : St) (repo_id : String) (speed : ℚ) :
    List Fetch × Except Err OfflineTts × St :=
  match lruGet st.mmsCache (repo_id, speed) with
  | (some tts, c) => ([], .ok tts, { st with mmsCache := c })
  | (none, _) =>
    match _get_vits_piper st repo_id speed with
    | (fs, .error e, st') => (fs, .error e, st')
    | (fs, .ok tts, st') =>
      (fs, .ok tts,
        { st' with mmsCache := lruInsert st.mmsCache (repo_id, speed) tts })

/-! ### The registry tables (model.py:416-743) and dispatch.

Python dict literals: a duplicate key inside one literal (the english
table repeats `vits-piper-en_GB-alan-medium`) leaves a single entry, and
`list(d.keys())` yields first-occurrence order, so key lists are taken up
to `eraseDups` and lookups take the first match (the values of duplicate
keys coincide). -/

/-- Which construction function a table entry maps its key to. -/
inductive BuilderKind where
  | vctk | ljs | piper | mms | aishell3 | hf
  deriving DecidableEq, Repr

abbrev ModelTable := List (String × BuilderKind)

/-- `list(d.keys())` of a table literal: first-occurrence key order. -/
def dictKeys (t : ModelTable) : List String := (t.map (fun p => p.1)).eraseDups

def cantonese_models : ModelTable := [
  ("csukuangfj/vits-cantonese-hf-xiaomaiiwn", .hf)
]

def chinese_models : ModelTable := [
  ("csukuangfj/vits-zh-hf-keqing|804", .hf),
  ("csukuangfj/vits-zh-hf-theresa|804", .hf),
  ("csukuangfj/vits-zh-hf-eula|804", .hf),
  ("csukuangfj/vits-zh-hf-echo|804", .hf),
  ("csukuangfj/vits-zh-hf-bronya|804", .hf),
  ("csukuangfj/vits-zh-hf-doom|804", .hf),
  ("csukuangfj/vits-zh-hf-zenyatta|804", .hf),
  ("csukuangfj/vits-zh-hf-abyssinvoker|804", .hf),
  ("csukuangfj/vits-zh-hf-fanchen-wnj|1", .hf),
  ("csukuangfj/vits-zh-hf-fanchen-C|187", .hf),
  ("csukuangfj/vits-zh-hf-fanchen-ZhiHuiLaoZhe|1", .hf),
  ("csukuangfj/vits-zh-hf-fanchen-ZhiHuiLaoZhe_new|1", .hf),
  ("csukuangfj/vits-zh-hf-fanchen-unity|1", .hf),
  ("csukuangfj/vits-zh-aishell3", .aishell3),
  ("csukuangfj/vits-piper-zh_CN-huayan-medium", .piper)
]

def english_models : ModelTable := [
  ("csukuangfj/vits-piper-en_US-glados", .piper),
  ("csukuangfj/vits-coqui-en-ljspeech", .piper),
  ("csukuangfj/vits-coqui-en-ljspeech-neon", .piper),
  ("csukuangfj/vits-coqui-en-vctk", .piper),
  ("csukuangfj/vits-piper-en_GB-sweetbbak-amy", .piper),
  ("csukuangfj/vits-piper-en_US-amy-low", .piper),
  ("csukuangfj/vits-piper-en_US-amy-medium", .piper),
  ("csukuangfj/vits-piper-en_US-arctic-medium", .piper),
  ("csukuangfj/vits-piper-en_US-danny-low", .piper),
  ("csukuangfj/vits-piper-en_US-hfc_male-medium", .piper),
  ("csukuangfj/vits-piper-en_US-joe-medium", .piper),
  ("csukuangfj/vits-piper-en_US-kathleen-low", .piper),
  ("csukuangfj/vits-piper-en_US-kusal-medium", .piper),
  ("csukuangfj/vits-piper-en_US-l2arctic-medium", .piper),
  ("csukuangfj/vits-piper-en_US-lessac-high", .piper),
  ("csukuangfj/vits-piper-en_US-lessac-low", .piper),
  ("csukuangfj/vits-piper-en_US-lessac-medium", .piper),
  ("csukuangfj/vits-piper-en_US-libritts-high", .piper),
  ("csukuangfj/vits-piper-en_US-libritts_r-medium", .piper),
  ("csukuangfj/vits-piper-en_US-ljspeech-high", .piper),
  ("csukuangfj/vits-piper-en_US-ljspeech-medium", .piper),
  ("csukuangfj/vits-piper-en_US-ryan-high", .piper),
  ("csukuangfj/vits-piper-en_US-ryan-low", .piper),
  ("csukuangfj/vits-piper-en_US-ryan-medium", .piper),
  ("csukuangfj/vits-piper-en_GB-alan-low", .piper),
  ("csukuangfj/vits-piper-en_GB-alan-medium", .piper),
  ("csukuangfj/vits-piper-en_GB-alan-medium", .piper),
  ("csukuangfj/vits-piper-en_GB-cori-high", .piper),
  ("csukuangfj/vits-piper-en_GB-cori-medium", .piper),
  ("csukuangfj/vits-piper-en_GB-jenny_dioco-medium", .piper),
  ("csukuangfj/vits-piper-en_GB-northern_english_male-medium", .piper),
  ("csukuangfj/vits-piper-en_GB-semaine-medium", .piper),
  ("csukuangfj/vits-piper-en_GB-southern_english_female-low", .piper),
  ("csukuangfj/vits-piper-en_GB-vctk-medium", .piper),
  ("csukuangfj/vits-vctk", .vctk),
  ("csukuangfj/vits-ljs", .ljs)
]

def german_models : ModelTable := [
  ("csukuangfj/vits-coqui-de-css10", .piper),
  ("csukuangfj/vits-piper-de_DE-eva_k-x_low", .piper),
  ("csukuangfj/vits-piper-de_DE-karlsson-low", .piper),
  ("csukuangfj/vits-piper-de_DE-kerstin-low", .piper),
  ("csukuangfj/vits-piper-de_DE-mls-medium", .piper),
  ("csukuangfj/vits-piper-de_DE-pavoque-low", .piper),
  ("csukuangfj/vits-piper-de_DE-ramona-low", .piper),
  ("csukuangfj/vits-piper-de_DE-thorsten-low", .piper),
  ("csukuangfj/vits-piper-de_DE-thorsten-medium", .piper),
  ("csukuangfj/vits-piper-de_DE-thorsten-high", .piper),
  ("csukuangfj/vits-piper-de_DE-thorsten_emotional-medium", .piper)
]

def spanish_models : ModelTable := [
  ("csukuangfj/vits-piper-es-glados-medium", .piper),
  ("csukuangfj/vits-piper-es_ES-carlfm-x_low", .piper),
  ("csukuangfj/vits-piper-es_ES-davefx-medium", .piper),
  ("csukuangfj/vits-piper-es_ES-sharvard-medium", .piper),
  ("csukuangfj/vits-piper-es_MX-ald-medium", .piper),
  ("csukuangfj/vits-piper-es_MX-claude-high", .piper),
  ("csukuangfj/vits-mimic3-es_ES-m-ailabs_low", .piper)
]

def french_models : ModelTable := [
  ("csukuangfj/vits-coqui-fr-css10", .piper),
  ("csukuangfj/vits-piper-fr_FR-mls-medium", .piper),
  ("csukuangfj/vits-piper-fr_FR-upmc-medium", .piper),
  ("csukuangfj/vits-piper-fr_FR-siwis-low", .piper),
  ("csukuangfj/vits-piper-fr_FR-siwis-medium", .piper),
  ("csukuangfj/vits-piper-fr_FR-tjiho-model1", .piper),
  ("csukuangfj/vits-piper-fr_FR-tjiho-model2", .piper),
  ("csukuangfj/vits-piper-fr_FR-tjiho-model3", .piper)
]

def ukrainian_models : ModelTable := [
  ("csukuangfj/vits-piper-uk_UA-lada-x_low", .piper),
  ("csukuangfj/vits-coqui-uk-mai", .piper)
]

def russian_models : ModelTable := [
  ("csukuangfj/vits-piper-ru_RU-denis-medium", .piper),
  ("csukuangfj/vits-piper-ru_RU-dmitri-medium", .piper),
  ("csukuangfj/vits-piper-ru_RU-irina-medium", .piper),
  ("csukuangfj/vits-piper-ru_RU-ruslan-medium", .piper)
]

def arabic_models : ModelTable := [
  ("csukuangfj/vits-piper-ar_JO-kareem-low", .piper),
  ("csukuangfj/vits-piper-ar_JO-kareem-medium", .piper)
]

def catalan_models : ModelTable := [
  ("csukuangfj/vits-piper-ca_ES-upc_ona-x_low", .piper),
  ("csukuangfj/vits-piper-ca_ES-upc_ona-medium", .piper),
  ("csukuangfj/vits-piper-ca_ES-upc_pau-x_low", .piper)
]

def czech_models : ModelTable := [
  ("csukuangfj/vits-piper-cs_CZ-jirka-low", .piper),
  ("csukuangfj/vits-piper-cs_CZ-jirka-medium", .piper),
  ("csukuangfj/vits-coqui-cs-cv", .piper)
]

def danish_models : ModelTable := [
  ("csukuangfj/vits-coqui-da-cv", .piper),
  ("csukuangfj/vits-piper-da_DK-talesyntese-medium", .piper)
]

def greek_models : ModelTable := [
  ("csukuangfj/vits-piper-el_GR-rapunzelina-low", .piper)
]

def finnish_models : ModelTable := [
  ("csukuangfj/vits-coqui-fi-css10", .piper),
  ("csukuangfj/vits-piper-fi_FI-harri-low", .piper),
  ("csukuangfj/vits-piper-fi_FI-harri-medium", .piper),
  ("csukuangfj/vits-mimic3-fi_FI-harri-tapani-ylilammi_low", .piper)
]

def hungarian_models : ModelTable := [
  ("csukuangfj/vits-piper-hu_HU-anna-medium", .piper),
  ("csukuangfj/vits-piper-hu_HU-berta-medium", .piper),
  ("csukuangfj/vits-piper-hu_HU-imre-medium", .piper),
  ("csukuangfj/vits-mimic3-hu_HU-diana-majlinger_low", .piper)
]

def icelandic_models : ModelTable := [
  ("csukuangfj/vits-piper-is_IS-bui-medium", .piper),
  ("csukuangfj/vits-piper-is_IS-salka-medium", .piper),
  ("csukuangfj/vits-piper-is_IS-steinn-medium", .piper),
  ("csukuangfj/vits-piper-is_IS-ugla-medium", .piper)
]

def italian_models : ModelTable := [
  ("csukuangfj/vits-piper-it_IT-riccardo-x_low", .piper)
]

def georgian_models : ModelTable := [
  ("csukuangfj/vits-piper-ka_GE-natia-medium", .piper)
]

def kazakh_models : ModelTable := [
  ("csukuangfj/vits-piper-kk_KZ-iseke-x_low", .piper),
  ("csukuangfj/vits-piper-kk_KZ-issai-high", .piper),
  ("csukuangfj/vits-piper-kk_KZ-raya-x_low", .piper)
]

def luxembourgish_models : ModelTable := [
  ("csukuangfj/vits-piper-lb_LU-marylux-medium", .piper)
]

def nepali_models : ModelTable := [
  ("csukuangfj/vits-piper-ne_NP-google-medium", .piper),
  ("csukuangfj/vits-piper-ne_NP-google-x_low", .piper),
  ("csukuangfj/vits-mimic3-ne_NP-ne-google_low", .piper)
]

def dutch_models : ModelTable := [
  ("csukuangfj/vits-coqui-nl-css10", .piper),
  ("csukuangfj/vits-piper-nl_BE-nathalie-medium", .piper),
  ("csukuangfj/vits-piper-nl_BE-nathalie-x_low", .piper),
  ("csukuangfj/vits-piper-nl_BE-rdh-medium", .piper),
  ("csukuangfj/vits-piper-nl_BE-rdh-x_low", .piper),
  ("csukuangfj/vits-piper-nl_NL-mls-medium", .piper),
  ("csukuangfj/vits-piper-nl_NL-mls_5809-low", .piper),
  ("csukuangfj/vits-piper-nl_NL-mls_7432-low", .piper)
]

def norwegian_models : ModelTable := [
  ("csukuangfj/vits-piper-no_NO-talesyntese-medium", .piper)
]

def polish_models : ModelTable := [
  ("csukuangfj/vits-coqui-pl-mai_female", .piper),
  ("csukuangfj/vits-piper-pl_PL-darkman-medium", .piper),
  ("csukuangfj/vits-piper-pl_PL-gosia-medium", .piper),
  ("csukuangfj/vits-piper-pl_PL-mc_speech-medium", .piper),
  ("csukuangfj/vits-mimic3-pl_PL-m-ailabs_low", .piper)
]

def portuguese_models : ModelTable := [
  ("csukuangfj/vits-coqui-pt-cv", .piper),
  ("csukuangfj/vits-piper-pt_BR-edresson-low", .piper),
  ("csukuangfj/vits-piper-pt_BR-faber-medium", .piper),
  ("csukuangfj/vits-piper-pt_PT-tugao-medium", .piper)
]

def romanian_models : ModelTable := [
  ("csukuangfj/vits-coqui-ro-cv", .piper),
  ("csukuangfj/vits-piper-ro_RO-mihai-medium", .piper)
]

def slovak_models : ModelTable := [
  ("csukuangfj/vits-coqui-sk-cv", .piper),
  ("csukuangfj/vits-piper-sk_SK-lili-medium", .piper)
]

def serbian_models : ModelTable := [
  ("csukuangfj/vits-piper-sr_RS-serbski_institut-medium", .piper)
]

def swedish_models : ModelTable := [
  ("csukuangfj/vits-coqui-sv-cv", .piper),
  ("csukuangfj/vits-piper-sv_SE-nst-medium", .piper)
]

def swahili_models : ModelTable := [
  ("csukuangfj/vits-piper-sw_CD-lanfrica-medium", .piper)
]

def turkish_models : ModelTable := [
  ("csukuangfj/vits-piper-tr_TR-dfki-medium", .piper),
  ("csukuangfj/vits-piper-tr_TR-fahrettin-medium", .piper)
]

def vietnamese_models : ModelTable := [
  ("csukuangfj/vits-piper-vi_VN-25hours_single-low", .piper),
  ("csukuangfj/vits-piper-vi_VN-vais1000-medium", .piper),
  ("csukuangfj/vits-piper-vi_VN-vivos-x_low", .piper),
  ("csukuangfj/vits-mimic3-vi_VN-vais1000_low", .piper)
]

def bulgarian_models : ModelTable := [
  ("csukuangfj/vits-coqui-bg-cv", .piper)
]

def estonian_models : ModelTable := [
  ("csukuangfj/vits-coqui-et-cv", .piper)
]

def irish_models : ModelTable := [
  ("csukuangfj/vits-coqui-ga-cv", .piper)
]

def croatian_models : ModelTable := [
  ("csukuangfj/vits-coqui-hr-cv", .piper)
]

def lithuanian_models : ModelTable := [
  ("csukuangfj/vits-coqui-lt-cv", .piper)
]

def latvian_models : ModelTable := [
  ("csukuangfj/vits-coqui-lv-cv", .piper)
]

def maltese_models : ModelTable := [
  ("csukuangfj/vits-coqui-mt-cv", .piper)
]

def slovenian_models : ModelTable := [
  ("csukuangfj/vits-piper-sl_SI-artur-medium", .piper),
  ("csukuangfj/vits-coqui-sl-cv", .piper)
]

def bengali_models : ModelTable := [
  ("csukuangfj/vits-coqui-bn-custom_female", .piper),
  ("csukuangfj/vits-mimic3-bn-multi_low", .piper)
]

def min_nan_models : ModelTable := [
  ("csukuangfj/vits-mms-nan", .mms)
]

def thai_models : ModelTable := [
  ("csukuangfj/vits-mms-tha", .mms)
]

def persian_models : ModelTable := [
  ("csukuangfj/vits-piper-fa_IR-amir-medium", .piper),
  ("csukuangfj/vits-piper-fa_IR-gyro-medium", .piper),
  ("csukuangfj/vits-mimic3-fa-haaniye_low", .piper)
]

def korean_models : ModelTable := [
  ("csukuangfj/vits-mimic3-ko_KO-kss_low", .piper)
]

def afrikaans_models : ModelTable := [
  ("csukuangfj/vits-mimic3-af_ZA-google-nwu_low", .piper)
]

def gujarati_models : ModelTable := [
  ("csukuangfj/vits-mimic3-gu_IN-cmu-indic_low", .piper)
]

def tswana_models : ModelTable := [
  ("csukuangfj/vits-mimic3-tn_ZA-google-nwu_low", .piper)
]

-- dispatch order (from the if/elif chain):
def allTables : List ModelTable := [
  chinese_models,
  cantonese_models,
  english_models,
  german_models,
  spanish_models,
  french_models,
  ukrainian_models,
  russian_models,
  arabic_models,
  catalan_models,
  czech_models,
  danish_models,
  greek_models,
  finnish_models,
  hungarian_models,
  icelandic_models,
  italian_models,
  georgian_models,
  kazakh_models,
  luxembourgish_models,
  nepali_models,
  dutch_models,
  norwegian_models,
  polish_models,
  portuguese_models,
  romanian_models,
  slovak_models,
  serbian_models,
  swedish_models,
  swahili_models,
  turkish_models,
  vietnamese_models,
  bulgarian_models,
  estonian_models,
  irish_models,
  croatian_models,
  lithuanian_models,
  latvian_models,
  maltese_models,
  slovenian_models,
  bengali_models,
  min_nan_models,
  thai_models,
  persian_models,
  korean_models,
  afrikaans_models,
  gujarati_models,
  tswana_models
]

def language_to_models : List (String × List String) := [
  ("English", dictKeys english_models),
  ("Chinese (Mandarin, 普通话)", dictKeys chinese_models),
  ("Cantonese (粤语)", dictKeys cantonese_models),
  ("Min-nan (闽南话)", dictKeys min_nan_models),
  ("Arabic", dictKeys arabic_models),
  ("Afrikaans", dictKeys afrikaans_models),
  ("Bengali", dictKeys bengali_models),
  ("Bulgarian", dictKeys bulgarian_models),
  ("Catalan", dictKeys catalan_models),
  ("Croatian", dictKeys croatian_models),
  ("Czech", dictKeys czech_models),
  ("Danish", dictKeys danish_models),
  ("Dutch", dictKeys dutch_models),
  ("Estonian", dictKeys estonian_models),
  ("Finnish", dictKeys finnish_models),
  ("French", dictKeys french_models),
  ("Georgian", dictKeys georgian_models),
  ("German", dictKeys german_models),
  ("Greek", dictKeys greek_models),
  ("Gujarati", dictKeys gujarati_models),
  ("Hungarian", dictKeys hungarian_models),
  ("Icelandic", dictKeys icelandic_models),
  ("Irish", dictKeys irish_models),
  ("Italian", dictKeys italian_models),
  ("Kazakh", dictKeys kazakh_models),
  ("Korean", dictKeys korean_models),
  ("Latvian", dictKeys latvian_models),
  ("Lithuanian", dictKeys lithuanian_models),
  ("Luxembourgish", dictKeys luxembourgish_models),
  ("Maltese", dictKeys maltese_models),
  ("Nepali", dictKeys nepali_models),
  ("Norwegian", dictKeys norwegian_models),
  ("Persian", dictKeys persian_models),
  ("Polish", dictKeys polish_models),
  ("Portuguese", dictKeys portuguese_models),
  ("Romanian", dictKeys romanian_models),
  ("Russian", dictKeys russian_models),
  ("Serbian", dictKeys serbian_models),
  ("Slovak", dictKeys slovak_models),
  ("Slovenian", dictKeys slovenian_models),
  ("Spanish", dictKeys spanish_models),
  ("Swahili", dictKeys swahili_models),
  ("Swedish", dictKeys swedish_models),
  ("Thai", dictKeys thai_models),
  ("Tswana", dictKeys tswana_models),
  ("Turkish", dictKeys turkish_models),
  ("Ukrainian", dictKeys ukrainian_models),
  ("Vietnamese", dictKeys vietnamese_models)
]


/-- First-match lookup in one table (Python dict membership + indexing;
values of duplicate keys coincide, so first match is faithful). -/
def tableLookup (t : ModelTable) (repo_id : String) : Option BuilderKind :=
  match t with
  | [] => none
  | (k, b) :: rest => if repo_id = k then some b else tableLookup rest repo_id

/-- The `if repo_id in chinese_models: ... elif ...` chain of
`get_pretrained_model` (model.py:316-411): scan the partitions in source
order. -/
def tablesLookup (ts : List ModelTable) (repo_id : String) : Option BuilderKind :=
  match ts with
  | [] => none
  | t :: rest =>
    match tableLookup t repo_id with
    | some b => some b
    | none => tablesLookup rest repo_id

/-- Which builder `get_pretrained_model` dispatches `repo_id` to, or
`none` for the final `raise ValueError(f"Unsupported repo_id: ...")`. -/
def lookupBuilder (repo_id : String) : Option BuilderKind :=
  tablesLookup allTables repo_id

/-- Every (key, builder) pair of every partition table. -/
def allModelPairs : ModelTable := allTables.foldr (fun t acc => t ++ acc) []

/-- Dispatch to the cached construction function named by a table
value. -/
def runBuilder : BuilderKind → St → String → ℚ → List Fetch × Except Err OfflineTts × St
  | .vctk => _get_vits_vctk
  | .ljs => _get_vits_ljs
  | .piper => _get_vits_piper
  | .mms => _get_vits_mms
  | .aishell3 => _get_vits_zh_aishell3
  | .hf => _get_vits_hf

/-- `get_pretrained_model` (model.py:314-413): its own
`@lru_cache(maxsize=10)` in front of the partition scan; unknown ids
raise Unsupported without touching any builder or `get_file`. -/
def get_pretrained_model (st : St) (repo_id : String) (speed : ℚ) :
    List Fetch × Except Err OfflineTts × St :=
  match lruGet st.outerCache (repo_id, speed) with
  | (some tts, c) => ([], .ok tts, { st with outerCache := c })
  | (none, _) =>
    match lookupBuilder repo_id with
    | none => ([], .error (.unsupported repo_id), st)
    | some bk =>
      match runBuilder bk st repo_id speed with
      | (fs, .error e, st') => (fs, .error e, st')
      | (fs, .ok tts, st') =>
        (fs, .ok tts,
          { st' with outerCache := lruInsert st'.outerCache (repo_id, speed) tts })

/-! ### app.py: the synthesis entry point and the startup path -/

/-- The audio object returned by `tts.generate`. -/
structure Audio where
  samples : List Int
  sample_rate : Nat
  deriving DecidableEq, Repr

/-- `app.process` (app.py:75-112): resolve the engine through
`get_pretrained_model`, synthesize, and reject zero-length audio with a
ValueError before computing the duration.  The engine's `generate`
method is external native code, modelled by the `generate` parameter
(text and speaker id are fixed inside it); the subsequent wav-file write
is an external collaborator and not modelled.  `process` performs no
validation of `speed`. -/
def process (st : St) (repo_id : String) (speed : ℚ)
    (generate : OfflineTts → Audio) : List Fetch × Except Err Audio × St :=
  match get_pretrained_model st repo_id speed with
  | (fs, .error e, st') => (fs, .error e, st')
  | (fs, .ok tts, st') =>
    let audio := generate tts
    if audio.samples.length = 0 then (fs, .error .generationError, st')
    else (fs, .ok audio, st')

/-- Observable actions of the startup path. -/
inductive SysAction where
  | shell (cmd : String)
  | launch
  deriving DecidableEq, Repr

/-- Modelled from CPython semantics (the `os` module is outside this
repository): the attribute surface of `os` relevant to
`download_espeak_ng_data` — `os` exposes `system`; there is no attribute
`sytem`, so looking it up raises AttributeError. -/
def osModuleAttrs : List String := ["system"]

/-- The shell command text of app.py:192-196 (only ever passed if the
attribute lookup were to succeed). -/
def espeakDownloadCmd : String :=
  "\n    cd /tmp\n    wget https://github.com/k2-fsa/sherpa-onnx/releases/download/tts-models/espeak-ng-data.tar.bz2\n    tar xf espeak-ng-data.tar.bz2\n    "

/-- `download_espeak_ng_data` (app.py:190-197): evaluates `os.sytem`,
i.e. looks up attribute "sytem" on the `os` module, before the shell
command could run. -/
def download_espeak_ng_data : List SysAction × Except Err Unit :=
  if osModuleAttrs.contains "sytem" then
    ([SysAction.shell espeakDownloadCmd], .ok ())
  else ([], .error .attributeError)

/-- The `__main__` block (app.py:200-206): download the espeak-ng data,
then launch the demo; an exception in the download aborts before
`demo.launch()`. -/
def mainStartup : List SysAction × Except Err Unit :=
  match download_espeak_ng_data with
  | (acts, .error e) => (acts, .error e)
  | (acts, .ok _) => (acts ++ [SysAction.launch], .ok ())

/-! ### Observation helpers for the theorems -/

/-- Is an `Except` result a success? -/
def isOkB : Except Err α → Bool
  | .ok _ => true
  | .error _ => false

/-- The `length_scale` of a successfully built config. -/
def lengthScaleOf : Except Err OfflineTtsConfig → Option ℚ
  | .ok cfg => some cfg.model.vits.length_scale
  | .error _ => none

/-- The `lexicon` of a successfully built config. -/
def lexiconOf : Except Err OfflineTtsConfig → Option String
  | .ok cfg => some cfg.model.vits.lexicon
  | .error _ => none

/-- Thread a sequence of `get_pretrained_model` calls through the state,
discarding results. -/
def resolveSeq (st : St) (ks : List CacheKey) : St :=
  ks.foldl (fun s k => (get_pretrained_model s k.1 k.2).2.2) st

/-- `xs` shares no element with any of the lists `yss`. -/
def disjointFromB (xs : List String) : List (List String) → Bool
  | [] => true
  | ys :: rest => xs.all (fun x => !(ys.contains x)) && disjointFromB xs rest

/-- The given lists of identifiers are pairwise disjoint. -/
def pairwiseDisjointB : List (List String) → Bool
  | [] => true
  | xs :: rest => disjointFromB xs rest && pairwiseDisjointB rest

/-- A base-1114112 numeric fingerprint of a string: the base exceeds
every character code, so equal strings always have equal fingerprints
(fingerprint inequality is a sound fast path for string inequality,
letting the disjointness check run on kernel-accelerated naturals). -/
def fp (s : String) : Nat := s.data.foldl (fun h c => h * 1114112 + c.toNat) 1

/-- `disjointFromB` on fingerprint lists. -/
def natDisjointFrom (xs : List Nat) : List (List Nat) → Bool
  | [] => true
  | ys :: rest => xs.all (fun x => !(ys.contains x)) && natDisjointFrom xs rest

/-- `pairwiseDisjointB` on fingerprint lists. -/
def natPairwiseDisjoint : List (List Nat) → Bool
  | [] => true
  | xs :: rest => natDisjointFrom xs rest && natPairwiseDisjoint rest

/-- The defensive guard inside the builder a table entry dispatches to:
the `assert repo_id == ...` of vctk/ljs/aishell3, and, for the piper
builder (also reached through mms delegation), membership in one of the
four recognized sub-families — exactly the condition under which the
`raise ValueError(f"Unsupported {repo_id}")` branch is not taken.  The
hf builder has no guard. -/
def builderGuardOk : String × BuilderKind → Bool
  | (k, .vctk) => decide (k = "csukuangfj/vits-vctk")
  | (k, .ljs) => decide (k = "csukuangfj/vits-ljs")
  | (k, .aishell3) => decide (k = "csukuangfj/vits-zh-aishell3")
  | (k, .piper) => (piperModelName k).isSome
  | (k, .mms) => (piperModelName k).isSome
  | (_, .hf) => true

/-- The registry identifiers that carry a `|`-separated disambiguation
tag and dispatch to `_get_vits_hf`. -/
def hfTaggedIds : List String :=
  (allModelPairs.filter
    (fun p => decide (p.2 = BuilderKind.hf) && pyIn "|" p.1)).map (fun p => p.1)

/-! ### Scenario data for the cache-eviction claims -/

/-- Eleven distinct keys that all dispatch to `_get_vits_piper`. -/
def keysA : List CacheKey :=
  [("csukuangfj/vits-piper-en_US-amy-low", 1),
   ("csukuangfj/vits-piper-en_US-amy-medium", 1),
   ("csukuangfj/vits-piper-en_US-arctic-medium", 1),
   ("csukuangfj/vits-piper-en_US-danny-low", 1),
   ("csukuangfj/vits-piper-en_US-hfc_male-medium", 1),
   ("csukuangfj/vits-piper-en_US-joe-medium", 1),
   ("csukuangfj/vits-piper-en_US-kathleen-low", 1),
   ("csukuangfj/vits-piper-en_US-kusal-medium", 1),
   ("csukuangfj/vits-piper-en_US-l2arctic-medium", 1),
   ("csukuangfj/vits-piper-en_US-lessac-high", 1),
   ("csukuangfj/vits-piper-en_US-lessac-low", 1)]

/-- Eleven distinct keys spread over two builders: the vctk voice first,
then ten piper voices. -/
def keysB : List CacheKey := ("csukuangfj/vits-vctk", 1) :: keysA.take 10

/-- State after resolving the eleven `keysA` keys from a fresh process. -/
def stA : St := resolveSeq St.init keysA

/-- State after resolving the eleven `keysB` keys from a fresh process. -/
def stB : St := resolveSeq St.init keysB

/-! ### Claim theorems -/

set_option maxRecDepth 8000

/-! ### Infrastructure lemmas -/

theorem lruGet_nil (k : CacheKey) : lruGet [] k = (none, []) := rfl

theorem lruGet_fst_none {c : LruCache} {k : CacheKey}
    (h : (lruGet c k).1 = none) : lruGet c k = (none, c) := by
  unfold lruGet at h ⊢
  cases hf : c.find? (fun p => decide (p.1 = k)) with
  | none => rfl
  | some p => rw [hf] at h; simp at h

theorem lruGet_singleton_self (k : CacheKey) (v : OfflineTts) :
    lruGet [(k, v)] k = (some v, [(k, v)]) := by
  simp [lruGet, List.find?, List.eraseP]

theorem tableLookup_mem {t : ModelTable} {r : String} {b : BuilderKind}
    (h : tableLookup t r = some b) : (r, b) ∈ t := by
  induction t with
  | nil => simp [tableLookup] at h
  | cons p rest ih =>
    obtain ⟨k, bv⟩ := p
    rw [tableLookup] at h
    by_cases hrk : r = k
    · rw [if_pos hrk] at h
      injection h with h
      subst hrk; subst h
      exact List.mem_cons_self _ _
    · rw [if_neg hrk] at h
      exact List.mem_cons_of_mem _ (ih h)

theorem tablesLookup_mem {ts : List ModelTable} {r : String} {b : BuilderKind}
    (h : tablesLookup ts r = some b) :
    ∃ t, t ∈ ts ∧ tableLookup t r = some b := by
  induction ts with
  | nil => simp [tablesLookup] at h
  | cons t rest ih =>
    rw [tablesLookup] at h
    cases htl : tableLookup t r with
    | some b0 =>
      rw [htl] at h
      injection h with h
      subst h
      exact ⟨t, List.mem_cons_self _ _, htl⟩
    | none =>
      rw [htl] at h
      obtain ⟨t0, ht0, htl0⟩ := ih h
      exact ⟨t0, List.mem_cons_of_mem _ ht0, htl0⟩

theorem mem_foldr_append {x : String × BuilderKind} {t : ModelTable}
    {ts : List ModelTable} (ht : t ∈ ts) (hx : x ∈ t) :
    x ∈ ts.foldr (fun t acc => t ++ acc) [] := by
  induction ts with
  | nil => cases ht
  | cons t0 rest ih =>
    rcases List.mem_cons.mp ht with h | h
    · subst h
      exact List.mem_append_left _ hx
    · exact List.mem_append_right _ (ih h)

theorem lookupBuilder_mem {r : String} {b : BuilderKind}
    (h : lookupBuilder r = some b) : (r, b) ∈ allModelPairs := by
  unfold lookupBuilder at h
  obtain ⟨t, ht, htl⟩ := tablesLookup_mem h
  exact mem_foldr_append ht (tableLookup_mem htl)

theorem allModelPairs_guardOk : allModelPairs.all builderGuardOk = true := by decide

theorem guardOk_of_mem {p : String × BuilderKind} (h : p ∈ allModelPairs) :
    builderGuardOk p = true :=
  List.all_eq_true.mp allModelPairs_guardOk p h

theorem vctk_key_of_mem {r : String}
    (h : (r, BuilderKind.vctk) ∈ allModelPairs) : r = "csukuangfj/vits-vctk" := by
  have hg := guardOk_of_mem h
  simpa [builderGuardOk] using hg

theorem ljs_key_of_mem {r : String}
    (h : (r, BuilderKind.ljs) ∈ allModelPairs) : r = "csukuangfj/vits-ljs" := by
  have hg := guardOk_of_mem h
  simpa [builderGuardOk] using hg

theorem aishell3_key_of_mem {r : String}
    (h : (r, BuilderKind.aishell3) ∈ allModelPairs) :
    r = "csukuangfj/vits-zh-aishell3" := by
  have hg := guardOk_of_mem h
  simpa [builderGuardOk] using hg

theorem piper_classified_of_mem {r : String}
    (h : (r, BuilderKind.piper) ∈ allModelPairs) :
    (piperModelName r).isSome = true := by
  have hg := guardOk_of_mem h
  simpa [builderGuardOk] using hg

theorem mms_classified_of_mem {r : String}
    (h : (r, BuilderKind.mms) ∈ allModelPairs) :
    (piperModelName r).isSome = true := by
  have hg := guardOk_of_mem h
  simpa [builderGuardOk] using hg

/-! ### Builder-body evaluation lemmas (symbolic speed) -/

theorem vctk_body_eq {s : ℚ} (hs : s ≠ 0) :
    _get_vits_vctk_body "csukuangfj/vits-vctk" s =
      ([("csukuangfj/vits-vctk", "vits-vctk.onnx"),
        ("csukuangfj/vits-vctk", "lexicon.txt"),
        ("csukuangfj/vits-vctk", "tokens.txt")],
       .ok
        { model :=
          { vits :=
            { model := get_file "csukuangfj/vits-vctk" "vits-vctk.onnx"
              lexicon := get_file "csukuangfj/vits-vctk" "lexicon.txt"
              tokens := get_file "csukuangfj/vits-vctk" "tokens.txt"
              length_scale := 1 / s } } }) := by
  unfold _get_vits_vctk_body
  rw [if_pos rfl, if_neg hs]

theorem ljs_body_eq {s : ℚ} (hs : s ≠ 0) :
    _get_vits_ljs_body "csukuangfj/vits-ljs" s =
      ([("csukuangfj/vits-ljs", "vits-ljs.onnx"),
        ("csukuangfj/vits-ljs", "lexicon.txt"),
        ("csukuangfj/vits-ljs", "tokens.txt")],
       .ok
        { model :=
          { vits :=
            { model := get_file "csukuangfj/vits-ljs" "vits-ljs.onnx"
              lexicon := get_file "csukuangfj/vits-ljs" "lexicon.txt"
              tokens := get_file "csukuangfj/vits-ljs" "tokens.txt"
              length_scale := 1 / s } } }) := by
  unfold _get_vits_ljs_body
  rw [if_pos rfl, if_neg hs]

theorem aishell3_body_ok {s : ℚ} (hs : s ≠ 0) :
    ∃ fs cfg, _get_vits_zh_aishell3_body "csukuangfj/vits-zh-aishell3" s =
      (fs, .ok cfg) ∧ fs ≠ [] := by
  unfold _get_vits_zh_aishell3_body
  rw [if_pos rfl, if_neg hs]
  exact ⟨_, _, rfl, by simp⟩

theorem piper_body_eq {r name : String} {s : ℚ}
    (h : piperModelName r = some name) (hs : s ≠ 0) :
    _get_vits_piper_body r s =
      ([(r, name ++ ".onnx"), (r, "tokens.txt")],
       .ok
        { model :=
          { vits :=
            { model := get_file r (name ++ ".onnx")
              lexicon := ""
              data_dir := piperDataDir r
              tokens := get_file r "tokens.txt"
              length_scale := 1 / s } } }) := by
  unfold _get_vits_piper_body
  rw [h]
  dsimp only
  rw [if_neg hs]

theorem hf_body_ok {r : String} {s : ℚ} (hs : s ≠ 0) :
    ∃ fs cfg, _get_vits_hf_body r s = (fs, .ok cfg) ∧ fs ≠ [] := by
  unfold _get_vits_hf_body
  by_cases hc : pyIn "vits-cantonese-hf-xiaomaiiwn" (pySplitHead '|' r) = true
  · rw [if_pos hc, if_neg hs]
    exact ⟨_, _, rfl, by simp⟩
  · rw [if_neg hc, if_neg hs]
    exact ⟨_, _, rfl, by simp⟩

/-! ### Cached-layer evaluation lemmas -/

theorem runCached_miss_ok (getC : St → LruCache) (setC : St → LruCache → St)
    (body : String → ℚ → List Fetch × Except Err OfflineTtsConfig)
    (st : St) {r : String} {s : ℚ} {fs : List Fetch} {cfg : OfflineTtsConfig}
    (hget : getC st = []) (hbody : body r s = (fs, .ok cfg)) :
    runCached getC setC body st r s =
      (fs, .ok ⟨cfg, st.nextId⟩,
        setC { st with nextId := st.nextId + 1 } [((r, s), ⟨cfg, st.nextId⟩)]) := by
  unfold runCached
  rw [hget, lruGet_nil, hbody]
  rfl

theorem gpm_unsupported {st : St} {r : String} {s : ℚ}
    (h1 : lookupBuilder r = none)
    (h2 : (lruGet st.outerCache (r, s)).1 = none) :
    get_pretrained_model st r s = ([], .error (.unsupported r), st) := by
  unfold get_pretrained_model
  rw [lruGet_fst_none h2, h1]

theorem gpm_init_build {r : String} {s : ℚ} {bk : BuilderKind}
    {fs : List Fetch} {tts : OfflineTts} {st' : St}
    (hlk : lookupBuilder r = some bk)
    (hrun : runBuilder bk St.init r s = (fs, .ok tts, st')) :
    get_pretrained_model St.init r s =
      (fs, .ok tts, { st' with outerCache := lruInsert st'.outerCache (r, s) tts }) := by
  unfold get_pretrained_model
  rw [show lruGet St.init.outerCache (r, s) = (none, []) from rfl, hlk]
  dsimp only
  rw [hrun]

theorem gpm_hit_singleton {st : St} {r : String} {s : ℚ} {tts : OfflineTts}
    (h : st.outerCache = [((r, s), tts)]) :
    get_pretrained_model st r s = ([], .ok tts, st) := by
  unfold get_pretrained_model
  rw [h, lruGet_singleton_self, ← h]

theorem mms_init_eq {r : String} {s : ℚ} {fs : List Fetch} {cfg : OfflineTtsConfig}
    (hb : _get_vits_piper_body r s = (fs, .ok cfg)) :
    _get_vits_mms St.init r s =
      (fs, .ok ⟨cfg, 0⟩,
        { St.init with
            piperCache := [((r, s), ⟨cfg, 0⟩)]
            mmsCache := [((r, s), ⟨cfg, 0⟩)]
            nextId := 1 }) := by
  unfold _get_vits_mms _get_vits_piper
  rw [show lruGet St.init.mmsCache (r, s) = (none, []) from rfl]
  dsimp only
  rw [runCached_miss_ok (fun st => st.piperCache)
    (fun st c => { st with piperCache := c }) _get_vits_piper_body St.init rfl hb]
  rfl

/-- C2: for every supported identifier and speed > 0, resolving twice
from a fresh process returns the very same engine object (identity via
the allocation stamp), with at least one Artifact-Fetcher call during
the first resolve and none during the second, and the second call does
not even change the cache state. -/
theorem resolve_memoizes (r : String) (s : ℚ) (hs : 0 < s)
    (hsup : (lookupBuilder r).isSome = true) :
    ∃ fs tts st1,
      get_pretrained_model St.init r s = (fs, .ok tts, st1) ∧ fs ≠ [] ∧
      get_pretrained_model st1 r s = ([], .ok tts, st1) := by
  obtain ⟨bk, hlk⟩ := Option.isSome_iff_exists.mp hsup
  have hmem := lookupBuilder_mem hlk
  cases bk with
  | vctk =>
    have hr := vctk_key_of_mem hmem
    subst hr
    have hrun := runCached_miss_ok (fun st => st.vctkCache)
      (fun st c => { st with vctkCache := c }) _get_vits_vctk_body St.init rfl
      (vctk_body_eq hs.ne')
    have hg := gpm_init_build hlk hrun
    exact ⟨_, _, _, hg, by simp, gpm_hit_singleton rfl⟩
  | ljs =>
    have hr := ljs_key_of_mem hmem
    subst hr
    have hrun := runCached_miss_ok (fun st => st.ljsCache)
      (fun st c => { st with ljsCache := c }) _get_vits_ljs_body St.init rfl
      (ljs_body_eq hs.ne')
    have hg := gpm_init_build hlk hrun
    exact ⟨_, _, _, hg, by simp, gpm_hit_singleton rfl⟩
  | piper =>
    obtain ⟨name, hname⟩ :=
      Option.isSome_iff_exists.mp (piper_classified_of_mem hmem)
    have hrun := runCached_miss_ok (fun st => st.piperCache)
      (fun st c => { st with piperCache := c }) _get_vits_piper_body St.init rfl
      (piper_body_eq hname hs.ne')
    have hg := gpm_init_build hlk hrun
    exact ⟨_, _, _, hg, by simp, gpm_hit_singleton rfl⟩
  | mms =>
    obtain ⟨name, hname⟩ :=
      Option.isSome_iff_exists.mp (mms_classified_of_mem hmem)
    have hrun := mms_init_eq (piper_body_eq hname hs.ne')
    have hg := gpm_init_build hlk hrun
    exact ⟨_, _, _, hg, by simp, gpm_hit_singleton rfl⟩
  | aishell3 =>
    have hr := aishell3_key_of_mem hmem
    subst hr
    obtain ⟨fs, cfg, hb, hfs⟩ := aishell3_body_ok hs.ne'
    have hrun := runCached_miss_ok (fun st => st.aishell3Cache)
      (fun st c => { st with aishell3Cache := c }) _get_vits_zh_aishell3_body St.init rfl hb
    have hg := gpm_init_build hlk hrun
    exact ⟨_, _, _, hg, hfs, gpm_hit_singleton rfl⟩
  | hf =>
    obtain ⟨fs, cfg, hb, hfs⟩ := hf_body_ok (r := r) hs.ne'
    have hrun := runCached_miss_ok (fun st => st.hfCache)
      (fun st c => { st with hfCache := c }) _get_vits_hf_body St.init rfl hb
    have hg := gpm_init_build hlk hrun
    exact ⟨_, _, _, hg, hfs, gpm_hit_singleton rfl⟩

/-- C1: for every identifier present in no language partition table,
`get_pretrained_model` signals Unsupported (the final
`raise ValueError(f"Unsupported repo_id: ...")`), performs zero `get_file`
calls, and leaves the state unchanged (given the key is not an
already-cached engine, as is the case for every unsupported id state
reachable from `St.init`). -/
theorem unsupported_id_signals_without_fetch {st : St} {r : String} {s : ℚ}
    (h1 : lookupBuilder r = none)
    (h2 : (lruGet st.outerCache (r, s)).1 = none) :
    get_pretrained_model st r s = ([], .error (.unsupported r), st) :=
  gpm_unsupported h1 h2

theorem unsupported_id_signals_without_fetch_witness :
    lookupBuilder "unknown/voice" = none ∧
    (lruGet St.init.outerCache ("unknown/voice", (1 : ℚ))).1 = none ∧
    get_pretrained_model St.init "unknown/voice" 1 =
      ([], .error (.unsupported "unknown/voice"), St.init) :=
  ⟨by decide, rfl, unsupported_id_signals_without_fetch (by decide) rfl⟩

theorem resolve_memoizes_witness :
    (0 : ℚ) < 1 ∧ (lookupBuilder "csukuangfj/vits-ljs").isSome = true ∧
    (∃ fs tts st1,
      get_pretrained_model St.init "csukuangfj/vits-ljs" 1 = (fs, .ok tts, st1) ∧
      fs ≠ [] ∧
      get_pretrained_model st1 "csukuangfj/vits-ljs" 1 = ([], .ok tts, st1)) :=
  ⟨by decide, by decide, resolve_memoizes _ _ (by decide) (by decide)⟩

/-- C6: every identifier the piper classifier accepts, built at speed 1
by `_get_vits_piper`, fetches exactly two artifacts — `{name}.onnx` and
`tokens.txt` — and the resulting config's lexicon is the empty
string. -/
theorem piper_build_two_fetches_no_lexicon (r name : String)
    (h : piperModelName r = some name) :
    (_get_vits_piper_body r 1).1 = [(r, name ++ ".onnx"), (r, "tokens.txt")] ∧
    lexiconOf (_get_vits_piper_body r 1).2 = some "" := by
  rw [piper_body_eq h one_ne_zero]
  exact ⟨rfl, rfl⟩

theorem piper_build_two_fetches_no_lexicon_witness :
    piperModelName "csukuangfj/vits-piper-en_US-amy-low" = some "en_US-amy-low" ∧
    ((_get_vits_piper_body "csukuangfj/vits-piper-en_US-amy-low" 1).1 =
      [("csukuangfj/vits-piper-en_US-amy-low", "en_US-amy-low" ++ ".onnx"),
       ("csukuangfj/vits-piper-en_US-amy-low", "tokens.txt")] ∧
     lexiconOf (_get_vits_piper_body "csukuangfj/vits-piper-en_US-amy-low" 1).2 =
       some "") :=
  ⟨by decide, piper_build_two_fetches_no_lexicon _ _ (by decide)⟩

theorem hf_body_length_scale {r : String} {s : ℚ} {fs : List Fetch}
    {cfg : OfflineTtsConfig} (h : _get_vits_hf_body r s = (fs, .ok cfg)) :
    cfg.model.vits.length_scale = 1 / s := by
  unfold _get_vits_hf_body at h
  by_cases hc : pyIn "vits-cantonese-hf-xiaomaiiwn" (pySplitHead '|' r) = true
  · rw [if_pos hc] at h
    by_cases hs : s = 0
    · rw [if_pos hs] at h
      simp at h
    · rw [if_neg hs] at h
      simp only [Prod.mk.injEq] at h
      obtain ⟨-, h2⟩ := h
      injection h2 with h2
      subst h2
      rfl
  · rw [if_neg hc] at h
    by_cases hs : s = 0
    · rw [if_pos hs] at h
      simp at h
    · rw [if_neg hs] at h
      simp only [Prod.mk.injEq] at h
      obtain ⟨-, h2⟩ := h
      injection h2 with h2
      subst h2
      rfl

theorem hfTagged_fetch_facts : ∀ r ∈ hfTaggedIds,
    ((_get_vits_hf_body r 2).1.all
      (fun p => decide (p.1 = pySplitHead '|' r))) = true ∧
    pyIn "|" (pySplitHead '|' r) = false ∧
    ((_get_vits_hf_body r 2).1.map (fun p => p.2)).drop 1 =
      ["lexicon.txt", "tokens.txt", "phone.fst", "date.fst", "number.fst",
       "new_heteronym.fst"] ∧
    (_get_vits_hf_body r 2).1.length = 7 := by decide

/-- C5: for every registry identifier carrying a `|` disambiguation tag
(all dispatch to `_get_vits_hf`), building at speed 2: every `get_file`
call uses the tag-stripped identifier (which contains no `|`), the seven
fetches after the model file are exactly lexicon, tokens, and the
four-file rule-transducer set phone/date/number/new_heteronym in that
order, and the assembled config's length_scale is 1/2. -/
theorem hf_tagged_build_stripped_ordered (r : String) (h : r ∈ hfTaggedIds) :
    ((_get_vits_hf_body r 2).1.all
      (fun p => decide (p.1 = pySplitHead '|' r))) = true ∧
    pyIn "|" (pySplitHead '|' r) = false ∧
    ((_get_vits_hf_body r 2).1.map (fun p => p.2)).drop 1 =
      ["lexicon.txt", "tokens.txt", "phone.fst", "date.fst", "number.fst",
       "new_heteronym.fst"] ∧
    (_get_vits_hf_body r 2).1.length = 7 ∧
    lengthScaleOf (_get_vits_hf_body r 2).2 = some (1 / 2) := by
  obtain ⟨h1, h2, h3, h4⟩ := hfTagged_fetch_facts r h
  refine ⟨h1, h2, h3, h4, ?_⟩
  obtain ⟨fs, cfg, hb, -⟩ := @hf_body_ok r 2 (by norm_num)
  rw [hb]
  show some cfg.model.vits.length_scale = some (1 / 2)
  rw [hf_body_length_scale hb]

theorem hf_tagged_build_stripped_ordered_witness :
    "csukuangfj/vits-zh-hf-keqing|804" ∈ hfTaggedIds ∧
    (((_get_vits_hf_body "csukuangfj/vits-zh-hf-keqing|804" 2).1.all
      (fun p =>
        decide (p.1 = pySplitHead '|' "csukuangfj/vits-zh-hf-keqing|804"))) = true ∧
     pyIn "|" (pySplitHead '|' "csukuangfj/vits-zh-hf-keqing|804") = false ∧
     ((_get_vits_hf_body "csukuangfj/vits-zh-hf-keqing|804" 2).1.map
        (fun p => p.2)).drop 1 =
      ["lexicon.txt", "tokens.txt", "phone.fst", "date.fst", "number.fst",
       "new_heteronym.fst"] ∧
     (_get_vits_hf_body "csukuangfj/vits-zh-hf-keqing|804" 2).1.length = 7 ∧
     lengthScaleOf (_get_vits_hf_body "csukuangfj/vits-zh-hf-keqing|804" 2).2 =
       some (1 / 2)) :=
  ⟨by decide, hf_tagged_build_stripped_ordered _ (by decide)⟩

theorem amy_process_nonzero (s : ℚ) (hs : s ≠ 0) :
    (process St.init "csukuangfj/vits-piper-en_US-amy-low" s
        (fun _ => Audio.mk [0] 16000)).1 =
      [("csukuangfj/vits-piper-en_US-amy-low", "en_US-amy-low.onnx"),
       ("csukuangfj/vits-piper-en_US-amy-low", "tokens.txt")] ∧
    isOkB (process St.init "csukuangfj/vits-piper-en_US-amy-low" s
        (fun _ => Audio.mk [0] 16000)).2.1 = true := by
  have hname : piperModelName "csukuangfj/vits-piper-en_US-amy-low" =
      some "en_US-amy-low" := by decide
  have hlk : lookupBuilder "csukuangfj/vits-piper-en_US-amy-low" =
      some BuilderKind.piper := by decide
  have hrun := runCached_miss_ok (fun st => st.piperCache)
    (fun st c => { st with piperCache := c }) _get_vits_piper_body St.init rfl
    (piper_body_eq hname hs)
  have hg := gpm_init_build hlk hrun
  unfold process
  rw [hg]
  dsimp only
  rw [if_neg (by decide : ¬((Audio.mk [0] 16000).samples.length = 0))]
  exact ⟨rfl, rfl⟩

/-- C3 (counterexample): at speed -1 ≤ 0, `process` on a supported
identifier performs the strategy fetches and returns success — no
InvalidParameter error is signalled before (or after) the fetches,
refuting the claim. -/
theorem speed_not_validated_cex :
    (process St.init "csukuangfj/vits-piper-en_US-amy-low" (-1)
        (fun _ => Audio.mk [0] 16000)).1 =
      [("csukuangfj/vits-piper-en_US-amy-low", "en_US-amy-low.onnx"),
       ("csukuangfj/vits-piper-en_US-amy-low", "tokens.txt")] ∧
    isOkB (process St.init "csukuangfj/vits-piper-en_US-amy-low" (-1)
        (fun _ => Audio.mk [0] 16000)).2.1 = true :=
  amy_process_nonzero (-1) (by norm_num)

/-- C3 (amended): `process` performs no speed validation.  For a
supported identifier and any speed s ≤ 0 the strategy fetches its
artifacts first; then, construction fails with Python's
ZeroDivisionError (from `length_scale=1.0/speed`) when s = 0, and
succeeds with a negative length_scale when s < 0. -/
theorem process_no_speed_validation (s : ℚ) (hle : s ≤ 0) :
    (process St.init "csukuangfj/vits-piper-en_US-amy-low" s
        (fun _ => Audio.mk [0] 16000)).1 =
      [("csukuangfj/vits-piper-en_US-amy-low", "en_US-amy-low.onnx"),
       ("csukuangfj/vits-piper-en_US-amy-low", "tokens.txt")] ∧
    (s = 0 →
      (process St.init "csukuangfj/vits-piper-en_US-amy-low" s
        (fun _ => Audio.mk [0] 16000)).2.1 = .error Err.zeroDivision) ∧
    (s < 0 →
      isOkB (process St.init "csukuangfj/vits-piper-en_US-amy-low" s
        (fun _ => Audio.mk [0] 16000)).2.1 = true) := by
  by_cases hs : s = 0
  · subst hs
    exact ⟨rfl, fun _ => rfl, fun hlt => absurd hlt (lt_irrefl 0)⟩
  · exact ⟨(amy_process_nonzero s hs).1, fun h0 => absurd h0 hs,
      fun _ => (amy_process_nonzero s hs).2⟩

theorem process_no_speed_validation_witness :
    ((-1 : ℚ) ≤ 0) ∧
    ((process St.init "csukuangfj/vits-piper-en_US-amy-low" (-1)
        (fun _ => Audio.mk [0] 16000)).1 =
      [("csukuangfj/vits-piper-en_US-amy-low", "en_US-amy-low.onnx"),
       ("csukuangfj/vits-piper-en_US-amy-low", "tokens.txt")] ∧
     ((-1 : ℚ) = 0 →
      (process St.init "csukuangfj/vits-piper-en_US-amy-low" (-1)
        (fun _ => Audio.mk [0] 16000)).2.1 = .error Err.zeroDivision) ∧
     ((-1 : ℚ) < 0 →
      isOkB (process St.init "csukuangfj/vits-piper-en_US-amy-low" (-1)
        (fun _ => Audio.mk [0] 16000)).2.1 = true)) :=
  ⟨by norm_num, process_no_speed_validation (-1) (by norm_num)⟩

/-- C8: `process` never returns a zero-length sample sequence as a
success: any successful result has non-empty samples, and whenever the
engine resolves but generates zero samples, `process` signals the
generation ValueError instead of a zero-duration success. -/
theorem process_rejects_empty_audio (st : St) (r : String) (s : ℚ)
    (generate : OfflineTts → Audio) :
    (∀ a, (process st r s generate).2.1 = .ok a → a.samples ≠ []) ∧
    ((∀ tts, (generate tts).samples = []) →
      isOkB (get_pretrained_model st r s).2.1 = true →
      (process st r s generate).2.1 = .error Err.generationError) := by
  constructor
  · intro a ha
    unfold process at ha
    rcases hg : get_pretrained_model st r s with ⟨fs, res, st1⟩
    rw [hg] at ha
    rcases res with e | tts
    · simp at ha
    · dsimp only at ha
      split at ha
      · simp at ha
      · rename_i hlen
        injection ha with ha
        subst ha
        intro hnil
        rw [hnil] at hlen
        simp at hlen
  · intro hgen hok
    unfold process
    rcases hg : get_pretrained_model st r s with ⟨fs, res, st1⟩
    rcases res with e | tts
    · rw [hg] at hok
      simp [isOkB] at hok
    · dsimp only
      rw [hgen tts]
      simp

theorem process_rejects_empty_audio_witness :
    (∀ tts : OfflineTts,
      ((fun _ : OfflineTts => Audio.mk [] 8000) tts).samples = []) ∧
    isOkB (get_pretrained_model St.init
      "csukuangfj/vits-piper-en_US-amy-low" 1).2.1 = true ∧
    (process St.init "csukuangfj/vits-piper-en_US-amy-low" 1
      (fun _ => Audio.mk [] 8000)).2.1 = .error Err.generationError :=
  ⟨fun _ => rfl, by decide,
   (process_rejects_empty_audio St.init "csukuangfj/vits-piper-en_US-amy-low" 1
     (fun _ => Audio.mk [] 8000)).2 (fun _ => rfl) (by decide)⟩

set_option maxRecDepth 8000

theorem fp_contains_false {x : String} :
    ∀ {ys : List String}, ((ys.map fp).contains (fp x)) = false →
      ys.contains x = false := by
  intro ys
  induction ys with
  | nil => intro h; rfl
  | cons y ys ih =>
    intro h
    simp only [List.map_cons, List.contains_cons, Bool.or_eq_false_iff] at h ⊢
    obtain ⟨h1, h2⟩ := h
    refine ⟨?_, ih h2⟩
    by_contra hxy
    rw [Bool.not_eq_false, beq_iff_eq] at hxy
    subst hxy
    rw [beq_self_eq_true] at h1
    cases h1

theorem all_not_contains_of_fp {xs ys : List String}
    (h : ((xs.map fp).all (fun x => !((ys.map fp).contains x))) = true) :
    (xs.all (fun x => !(ys.contains x))) = true := by
  induction xs with
  | nil => rfl
  | cons x xs ih =>
    simp only [List.map_cons, List.all_cons, Bool.and_eq_true] at h ⊢
    obtain ⟨h1, h2⟩ := h
    rw [Bool.not_eq_true'] at h1 ⊢
    exact ⟨fp_contains_false h1, ih h2⟩

theorem disjointFromB_of_fp {xs : List String} :
    ∀ {yss : List (List String)},
      natDisjointFrom (xs.map fp) (yss.map (List.map fp)) = true →
      disjointFromB xs yss = true := by
  intro yss
  induction yss with
  | nil => intro h; rfl
  | cons ys yss ih =>
    intro h
    rw [List.map_cons, natDisjointFrom, Bool.and_eq_true] at h
    rw [disjointFromB, Bool.and_eq_true]
    exact ⟨all_not_contains_of_fp h.1, ih h.2⟩

theorem pairwiseDisjointB_of_fp :
    ∀ {ls : List (List String)},
      natPairwiseDisjoint (ls.map (List.map fp)) = true →
      pairwiseDisjointB ls = true := by
  intro ls
  induction ls with
  | nil => intro h; rfl
  | cons xs rest ih =>
    intro h
    rw [List.map_cons, natPairwiseDisjoint, Bool.and_eq_true] at h
    rw [pairwiseDisjointB, Bool.and_eq_true]
    exact ⟨disjointFromB_of_fp h.1, ih h.2⟩

/-- C7: the language partitions of the registry are pairwise disjoint —
no identifier string occurs under two different language entries of
`language_to_models`. -/
theorem language_partitions_disjoint :
    pairwiseDisjointB (language_to_models.map (fun p => p.2)) = true :=
  pairwiseDisjointB_of_fp (by decide)

/-- C9: for every (key, builder) pair of the registry tables the
builder's defensive guard holds: keys dispatched to vctk/ljs/aishell3
are exactly the asserted ids, and every key dispatched to the piper
builder (directly or through mms delegation) is classified by one of the
four recognized sub-family markers, so the Unsupported ValueError branch
of `_get_vits_piper` is unreachable from the registry. -/
theorem builder_guards_never_fire : allModelPairs.all builderGuardOk = true :=
  allModelPairs_guardOk

/-- C10: `download_espeak_ng_data` looks up the misspelled attribute
`os.sytem` and raises AttributeError before running any shell command,
so the `__main__` startup path performs no action at all — the espeak-ng
bundle is never downloaded and `demo.launch()` is never reached. -/
theorem startup_fails_on_misspelled_attribute :
    download_espeak_ng_data = ([], .error Err.attributeError) ∧
    mainStartup = ([], .error Err.attributeError) := ⟨rfl, rfl⟩

/-- C4 (amended): resolving 11 distinct keys through a fresh state
evicts exactly the least-recently-touched key from the
`get_pretrained_model` cache (the other ten remain, and the cache holds
10 entries); when all 11 keys dispatch to the same builder — here
`_get_vits_piper`, whose own cache then evicts the same key — a
subsequent resolve of the evicted key does invoke the Artifact Fetcher
again. -/
theorem lru_evicts_exactly_lru_and_same_builder_refetches :
    (lruGet stA.outerCache ("csukuangfj/vits-piper-en_US-amy-low", 1)).1 = none ∧
    (keysA.drop 1).all (fun k => ((lruGet stA.outerCache k).1).isSome) = true ∧
    stA.outerCache.length = 10 ∧
    (get_pretrained_model stA "csukuangfj/vits-piper-en_US-amy-low" 1).1 ≠ [] := by
  decide

/-- C4 (counterexample): with 11 distinct keys spread over two builders
(the vctk voice, then ten piper voices), the vctk key is evicted from
the `get_pretrained_model` cache, yet re-resolving it performs zero
`get_file` calls and succeeds — the builder's own cache still holds the
engine — refuting "a subsequent resolve of the evicted key re-triggers
construction (the Artifact Fetcher is invoked again for that key)". -/
theorem evicted_key_reresolve_without_fetch :
    (lruGet stB.outerCache ("csukuangfj/vits-vctk", 1)).1 = none ∧
    (get_pretrained_model stB "csukuangfj/vits-vctk" 1).1 = [] ∧
    isOkB (get_pretrained_model stB "csukuangfj/vits-vctk" 1).2.1 = true := by
  decide

end K2TTS
